/-
Verification of the research-assistant pipeline against its natural-language
specification.

The Python sources are embedded shallowly:
  * pure string/list manipulation becomes Lean functions;
  * network and model-call effects become explicit outcome oracles
    (`Nat → FetchOutcome`, `Except Unit (Option Json)`, ...) supplied as
    parameters, one outcome per attempt;
  * Python exceptions become `Except`/`Option` results;
  * `time.sleep` calls are logged in an explicit sleep list so that backoff
    policies are provable;
  * file writes performed by the orchestrator are logged as `Effect` values.

Values decoded by `json.loads` are modelled by the inductive `Json` type:
whatever the live model returns reaches the parsing code only as such a
decoded value, so quantifying over `Json` quantifies over all responses.
-/
import Mathlib

namespace ResearchAssistant

/-- A decoded JSON value, the result of a successful `json.loads` in the
Python sources.  Python `None` is `Json.null`. -/
inductive Json where
  | null
  | bool (b : Bool)
  | num (n : Int)
  | str (s : String)
  | arr (elems : List Json)
  | obj (fields : List (String × Json))

/-- Python truthiness of a decoded JSON value (`if q:`). -/
def Json.truthy : Json → Bool
  | .null => false
  | .bool b => b
  | .num n => n != 0
  | .str s => s ≠ ""
  | .arr l => !l.isEmpty
  | .obj l => !l.isEmpty

/-- Python `dict.get(key)` on a decoded JSON object (`None` when absent).
Decoded JSON objects have unique keys, so first-match lookup is exact. -/
def Json.get (fields : List (String × Json)) (key : String) : Option Json :=
  fields.lookup key

/- ----------------------------------------------------------------------
Data model (src/search/search_types.py is imported by every pipeline module
but is not among the sources; its record types are taken from the spec).
---------------------------------------------------------------------- -/

/-- Modelled from the spec: `SearchResult` of the missing
src/search/search_types.py — "{url, title, snippet}", produced by a search
provider. -/
structure SearchResult where
  url : String
  title : String
  snippet : String
deriving Repr, DecidableEq

/-- Modelled from the spec: `Source` of the missing
src/search/search_types.py — "{url, title, content: text, fetch_time}".
Fetch times are abstracted to a numeric timestamp. -/
structure Source where
  url : String
  title : String
  content : String
  fetch_time : Nat
deriving Repr, DecidableEq

/-- Modelled from the spec: `Fact` of the missing src/search/search_types.py
— "{claim: text, caveat: optional text, confidence, source_url}". -/
structure Fact where
  claim : String
  caveat : Option String
  confidence : String
  source_url : String
deriving Repr, DecidableEq

/-- Modelled from the spec: `Contradiction` of the missing
src/search/search_types.py — "{issue, sources, explanation}". -/
structure Contradiction where
  issue : String
  sources : List String
  explanation : String
deriving Repr, DecidableEq

/-- Modelled from the spec: `Synthesis` of the missing
src/search/search_types.py — "{agreements, contradictions, gaps, answer}". -/
structure Synthesis where
  agreements : List String
  contradictions : List Contradiction
  gaps : List String
  answer : String
deriving Repr, DecidableEq

/-- Modelled from the spec: `ResearchReport` of the missing
src/search/search_types.py — "{question, sub_queries, sources, facts,
synthesis, timestamp}". -/
structure ResearchReport where
  question : String
  sub_queries : List String
  sources : List Source
  facts : List Fact
  synthesis : Synthesis
  timestamp : Nat
deriving Repr, DecidableEq

/- ----------------------------------------------------------------------
Query decomposer (src/src/analysis/query_decomposer.py).

`QueryDecomposer._parse_queries` locates a bracketed substring of the raw
response and runs `json.loads` on it; that extraction is modelled as an
`Option Json` (`none` when no array is found or `json.loads` raises, both of
which raise `ValueError` in the Python).  The remainder of `_parse_queries`
is embedded literally.
---------------------------------------------------------------------- -/

/-- Python `str.strip()` with no argument: remove leading and trailing
whitespace. -/
def pystrip (s : String) : String :=
  ⟨((s.data.dropWhile Char.isWhitespace).reverse.dropWhile Char.isWhitespace).reverse⟩

/-- The list comprehension `[q.strip() for q in queries if q and q.strip()]`
of `_parse_queries`: falsy entries are filtered out before `.strip()` is
reached, truthy non-strings raise `AttributeError` at `.strip()` (the whole
comprehension is abandoned), and stripped-empty strings are dropped. -/
def strip_queries : List Json → Except Unit (List String)
  | [] => .ok []
  | q :: rest =>
    if q.truthy then
      match q with
      | .str s =>
        if pystrip s = "" then strip_queries rest
        else
          match strip_queries rest with
          | .ok r => .ok (pystrip s :: r)
          | .error e => .error e
      | _ => .error ()
    else strip_queries rest

/-- `QueryDecomposer._parse_queries` after `json.loads`: the decoded value
must be a JSON array (`isinstance(queries, list)`), whose entries are
stripped and filtered.  Any failure is an exception (`Except.error`). -/
def parse_queries : Option Json → Except Unit (List String)
  | none => .error ()
  | some (.arr qs) => strip_queries qs
  | some _ => .error ()

/-- `QueryDecomposer.decompose`.  `callOutcome` is the outcome of
`self._call_claude(prompt)` followed by the JSON extraction: `.error` when
the model call raised, `.ok none` when no parsable JSON array was found,
`.ok (some j)` when `json.loads` produced `j`.  All exceptions are caught by
the enclosing `try` and fall back to `[question]`. -/
def decompose (question : String) (min_queries max_queries : Nat)
    (callOutcome : Except Unit (Option Json)) : List String :=
  match callOutcome with
  | .error _ => [question]
  | .ok parsed =>
    match parse_queries parsed with
    | .error _ => [question]
    | .ok sub_queries =>
      if sub_queries.length < min_queries then [question]
      else sub_queries.take max_queries

/- ----------------------------------------------------------------------
Fact extractor parsing (src/src/analysis/fact_extractor.py, `_parse_facts`).

`_parse_facts` extracts a braced substring and runs `json.loads`; as above
this stage is modelled as an `Option Json`.  Each entry of the `facts`
array is converted inside its own `try`: an exception there (`.get` on a
non-dict, `.lower()` on a non-string confidence) drops only that entry.
Since a `Fact` row is built from raw decoded values, the claim and caveat
are kept as `Json` here (`PFact`); Python performs no type check on them.
---------------------------------------------------------------------- -/

/-- Python `str.lower()` (ASCII case folding). -/
def pylower (s : String) : String :=
  ⟨s.data.map Char.toLower⟩

/-- A fact row as `_parse_facts` actually builds it: `claim` and `caveat`
are whatever decoded JSON values the entry carried. -/
structure PFact where
  claim : Json
  caveat : Json
  confidence : String
  source_url : String

/-- One iteration of the entry loop in `_parse_facts`: `none` when the entry
is dropped (its inner `try` raised, or its claim is falsy), `some` when the
`Fact` is appended.  `fact_dict.get('claim', '')`, `fact_dict.get('caveat')`
and `fact_dict.get('confidence', 'medium').lower()` are mirrored; a
non-string confidence raises `AttributeError` at `.lower()` and the entry is
dropped by the inner `except`. -/
def parse_fact_entry (source_url : String) (entry : Json) : Option PFact :=
  match entry with
  | .obj fact_dict =>
    let claim := (Json.get fact_dict "claim").getD (.str "")
    let caveat := (Json.get fact_dict "caveat").getD .null
    match (Json.get fact_dict "confidence").getD (.str "medium") with
    | .str c =>
      let c := pylower c
      let confidence :=
        if c = "high" ∨ c = "medium" ∨ c = "low" then c else "medium"
      if claim.truthy then some ⟨claim, caveat, confidence, source_url⟩
      else none
    | _ => none
  | _ => none

/-- `FactExtractor._parse_facts` after `json.loads`: the decoded value must
be an object with a `facts` list (anything else raises out of the method);
each list entry is converted by `parse_fact_entry`. -/
def parse_facts (source_url : String) (parsed : Option Json) :
    Except Unit (List PFact) :=
  match parsed with
  | none => .error ()
  | some (.obj data) =>
    match Json.get data "facts" with
    | none => .error ()
    | some (.arr facts_data) =>
      .ok (facts_data.filterMap (parse_fact_entry source_url))
    | some _ => .error ()
  | some _ => .error ()

/- ----------------------------------------------------------------------
Synthesizer (src/src/analysis/synthesizer.py).

`_parse_synthesis` is embedded over the decoded JSON value.  Where Python
would silently store an ill-typed field in the `Synthesis` record (a
non-list `agreements`/`gaps`, a truthy non-string `answer`), the model
treats the response as a parse failure instead, since the spec-level
`Synthesis` record is typed; the difference only routes more responses to
the same fallback and lies outside every behaviour the spec describes.
---------------------------------------------------------------------- -/

/-- Read a JSON value as a list of strings, if it is one. -/
def asStrList : Json → Option (List String)
  | .arr l =>
    l.mapM fun j =>
      match j with
      | .str s => some s
      | _ => none
  | _ => none

/-- Read an optional object field as a string with a default, as
`c.get(key, default)` does when the stored value is text. -/
def getStr (fields : List (String × Json)) (key : String) (dflt : String) :
    Option String :=
  match Json.get fields key with
  | none => some dflt
  | some (.str s) => some s
  | some _ => none

/-- One entry of the `contradictions` list in `_parse_synthesis`:
`c.get('issue', '')`, `c.get('sources', [])`, `c.get('explanation', '')`.
A non-object entry raises (`.get` on a non-dict). -/
def parse_contradiction : Json → Option Contradiction
  | .obj c =>
    match getStr c "issue" "", (Json.get c "sources").getD (.arr []),
        getStr c "explanation" "" with
    | some issue, sourcesJ, some explanation =>
      match asStrList sourcesJ with
      | some sources => some ⟨issue, sources, explanation⟩
      | none => none
    | _, _, _ => none
  | _ => none

/-- `Synthesizer._parse_synthesis` after `json.loads`: builds the
`Synthesis` record and then rejects it when the `answer` field is missing
or empty (`if not synthesis.answer: raise ValueError`). -/
def parse_synthesis (parsed : Option Json) : Except Unit Synthesis :=
  match parsed with
  | none => .error ()
  | some (.obj data) =>
    match (Json.get data "contradictions").getD (.arr []) with
    | .arr cs =>
      match cs.mapM parse_contradiction with
      | none => .error ()
      | some contradictions =>
        match asStrList ((Json.get data "agreements").getD (.arr [])),
            asStrList ((Json.get data "gaps").getD (.arr [])),
            getStr data "answer" "" with
        | some agreements, some gaps, some answer =>
          if answer = "" then .error ()
          else .ok ⟨agreements, contradictions, gaps, answer⟩
        | _, _, _ => .error ()
    | _ => .error ()
  | some _ => .error ()

/-- `Synthesizer._fallback_synthesis`: the deterministic local summary used
when the model path fails.  Mirrors the Python literally, including the
fixed placeholder texts. -/
def fallback_synthesis (_question : String) (facts : List Fact) : Synthesis :=
  let high_conf := facts.filter (fun f => f.confidence == "high")
  let answer :=
    if high_conf.isEmpty then
      "Multiple sources discuss this topic, but confidence levels vary. Key points include: "
        ++ (match facts with
            | [] => "No clear consensus."
            | f :: _ => f.claim)
    else
      "Based on " ++ toString high_conf.length ++ " high-confidence sources: "
        ++ String.intercalate " " ((high_conf.take 3).map Fact.claim)
  { agreements := ["Multiple sources found"]
    contradictions := []
    gaps := ["Detailed analysis unavailable due to synthesis error"]
    answer := answer }

/-- `Synthesizer.synthesize`.  With no facts the degenerate synthesis is
returned without calling the model; otherwise `callOutcome` is the outcome
of `_call_claude` plus JSON extraction (as in `decompose`), and any failure
in the `try` block falls back to `_fallback_synthesis`. -/
def synthesize (question : String) (facts : List Fact)
    (callOutcome : Except Unit (Option Json)) : Synthesis :=
  if facts.isEmpty then
    { agreements := []
      contradictions := []
      gaps := ["No sources found with relevant information"]
      answer := "Unable to answer the question due to lack of sources." }
  else
    match callOutcome with
    | .error _ => fallback_synthesis question facts
    | .ok parsed =>
      match parse_synthesis parsed with
      | .ok synthesis => synthesis
      | .error _ => fallback_synthesis question facts

/- ----------------------------------------------------------------------
Language-model client retry loop: `_call_claude`, written out identically in
query_decomposer.py, fact_extractor.py and synthesizer.py, is embedded once.
`out n` is what the n-th `messages.create` attempt would do.
---------------------------------------------------------------------- -/

/-- Outcome of one `self.client.messages.create(...)` attempt. -/
inductive CallOutcome where
  | success (text : String)
  | rateLimit
  | apiError
  | otherError
deriving Repr, DecidableEq

/-- The exception kind escaping `_call_claude`, when one does. -/
inductive CallError where
  | rateLimit
  | apiError
  | other
deriving Repr, DecidableEq

/-- What `_call_claude` does: return a value (Python returns `None` when the
loop body never runs, i.e. a zero retry budget) or raise. -/
inductive CallResult where
  | returned (s : Option String)
  | raised (e : CallError)
deriving Repr, DecidableEq

/-- An execution record of `_call_claude`: its outcome, its `time.sleep`
arguments in order, and how many `messages.create` attempts it made. -/
structure CallTrace where
  result : CallResult
  sleeps : List Nat
  attempts : Nat
deriving Repr, DecidableEq

/-- The `for attempt in range(max_retries)` loop of `_call_claude`.  A
successful attempt returns its text; `RateLimitError` sleeps `2 ** attempt`
and retries unless this was the last attempt, in which case it re-raises;
any other `anthropic.APIError` re-raises at once; an exception outside the
`anthropic` hierarchy propagates uncaught. -/
def call_go (out : Nat → CallOutcome) (max_retries : Nat) :
    Nat → Nat → CallTrace
  | _, 0 => ⟨.returned none, [], 0⟩
  | attempt, fuel + 1 =>
    match out attempt with
    | .success s => ⟨.returned (some s), [], 1⟩
    | .rateLimit =>
      if attempt < max_retries - 1 then
        let rec_trace := call_go out max_retries (attempt + 1) fuel
        ⟨rec_trace.result, 2 ^ attempt :: rec_trace.sleeps, rec_trace.attempts + 1⟩
      else ⟨.raised .rateLimit, [], 1⟩
    | .apiError => ⟨.raised .apiError, [], 1⟩
    | .otherError => ⟨.raised .other, [], 1⟩

/-- `_call_claude(prompt, max_retries)` as shared by the decomposer, the
fact extractor and the synthesizer (all three copies are identical). -/
def call_claude (out : Nat → CallOutcome) (max_retries : Nat) : CallTrace :=
  call_go out max_retries 0 max_retries

/- ----------------------------------------------------------------------
Content fetcher (src/src/search/content_fetcher.py).
---------------------------------------------------------------------- -/

/-- Outcome of one `requests.get` attempt inside `fetch_content`:
a 2xx response carrying what `trafilatura.extract` yields for it (`none`
models both `None` and an empty extraction), an HTTP error status raised by
`raise_for_status`, a timeout, another `requests.RequestException`, or an
unexpected exception. -/
inductive FetchOutcome where
  | success (extracted : Option String)
  | httpError (status : Nat)
  | timeout
  | requestError
  | unexpectedError
deriving Repr, DecidableEq

/-- The truncation step of `fetch_content`: `words = content.split()` (split
on whitespace runs, empty pieces discarded), and when more than `max_length`
words are present keep the first `max_length` joined by single spaces. -/
def truncate_words (max_length : Nat) (content : String) : String :=
  let words := (content.split Char.isWhitespace).filter (fun w => w ≠ "")
  if words.length > max_length then
    String.intercalate " " (words.take max_length)
  else content

/-- The `for attempt in range(self.retry_attempts)` loop of
`fetch_content`, returning the result together with the `time.sleep`
arguments issued.  A 5xx status sleeps `2 ** attempt` and retries (on the
last attempt it just lets the loop end, which returns `None`); a timeout
sleeps a constant 1 second and retries (returning `None` on the last
attempt); 404, 403 and the remaining non-5xx statuses, request errors and
unexpected exceptions return `None` at once. -/
def fetch_go (max_length retry_attempts : Nat) (out : Nat → FetchOutcome) :
    Nat → Nat → Option String × List Nat
  | _, 0 => (none, [])
  | attempt, fuel + 1 =>
    match out attempt with
    | .success extracted =>
      match extracted with
      | none => (none, [])
      | some content =>
        if content = "" then (none, [])
        else (some (truncate_words max_length content), [])
    | .httpError status =>
      if status = 404 then (none, [])
      else if status = 403 then (none, [])
      else if 500 ≤ status then
        if attempt < retry_attempts - 1 then
          let rec_trace := fetch_go max_length retry_attempts out (attempt + 1) fuel
          (rec_trace.1, 2 ^ attempt :: rec_trace.2)
        else fetch_go max_length retry_attempts out (attempt + 1) fuel
      else (none, [])
    | .timeout =>
      if attempt < retry_attempts - 1 then
        let rec_trace := fetch_go max_length retry_attempts out (attempt + 1) fuel
        (rec_trace.1, 1 :: rec_trace.2)
      else (none, [])
    | .requestError => (none, [])
    | .unexpectedError => (none, [])

/-- `ContentFetcher.fetch_content(url)` for a URL whose successive request
attempts behave as `out`. -/
def fetch_content (max_length retry_attempts : Nat)
    (out : Nat → FetchOutcome) : Option String × List Nat :=
  fetch_go max_length retry_attempts out 0 retry_attempts

/- ----------------------------------------------------------------------
Search engines (src/src/search/search_engine.py and
src/src/search/google_search_engine.py).
---------------------------------------------------------------------- -/

/-- The `for attempt in range(max_attempts)` loop of
`DuckDuckGoSearchEngine.search` with its fixed `max_attempts = 3`: a
successful backend call returns its result list immediately (even when
empty); any exception sleeps `2 ** attempt` and retries, and after the last
attempt returns the empty list instead of raising. -/
def ddg_go (out : Nat → Except Unit (List SearchResult)) :
    Nat → Nat → List SearchResult × List Nat
  | _, 0 => ([], [])
  | attempt, fuel + 1 =>
    match out attempt with
    | .ok results => (results, [])
    | .error _ =>
      if attempt < 3 - 1 then
        let rec_trace := ddg_go out (attempt + 1) fuel
        (rec_trace.1, 2 ^ attempt :: rec_trace.2)
      else ([], [])

/-- `DuckDuckGoSearchEngine.search` for a query whose backend attempts
behave as `out`. -/
def ddg_search (out : Nat → Except Unit (List SearchResult)) :
    List SearchResult :=
  (ddg_go out 0 3).1

/-- `GoogleSearchEngine.search`: both `HttpError` and any other exception
are caught and produce the empty list. -/
def google_search (out : Except Unit (List SearchResult)) :
    List SearchResult :=
  match out with
  | .ok results => results
  | .error _ => []

/-- `SearchEngine.__init__`: which engines get constructed for a provider
setting, given whether each backend can be initialised.  `.error` models
the constructor raising — either the explicit-Google branch re-raising, or
the final `ValueError` when no provider ended up available.  On success it
returns the lowered provider string and the two engine-present flags. -/
def searchEngine_init (provider : String) (ddg_ok google_ok : Bool) :
    Except Unit (String × Bool × Bool) :=
  let provider := pylower provider
  let ddg_engine := (provider == "duckduckgo" || provider == "auto") && ddg_ok
  if (provider == "google" || provider == "auto") && !google_ok && (provider == "google") then
    .error ()
  else
    let google_engine := (provider == "google" || provider == "auto") && google_ok
    if !ddg_engine && !google_engine then .error ()
    else .ok (provider, ddg_engine, google_engine)

/-- The tail of `SearchEngine.search`: `if self.google_engine: results =
self.google_engine.search(...)`, then `return results` — with no Google
engine whatever is currently in `results` is returned. -/
def google_step (results : List SearchResult)
    (google : Option (List SearchResult)) : List SearchResult :=
  match google with
  | some googleResults => googleResults
  | none => results

/-- `SearchEngine.search`.  `ddg` and `google` are the result lists the two
engine objects would produce for this query (`none` when the engine was not
constructed); both engines return lists and never raise, as proved about
`ddg_search` and `google_search` separately. -/
def searchEngine_search (provider : String) (ddg google : Option (List SearchResult)) :
    List SearchResult :=
  match ddg with
  | some ddgResults =>
    if provider == "google" then google_step [] google
    else if !ddgResults.isEmpty then ddgResults
    else if provider == "duckduckgo" then []
    else google_step ddgResults google
  | none => google_step [] google

/- ----------------------------------------------------------------------
Orchestrator (src/src/agent/orchestrator.py).

The collaborators constructed in `__init__` are abstracted by their
observable behaviour for the run at hand.  `search` and `fetch` are total:
`SearchEngine.search` and `ContentFetcher.fetch_content` catch every
exception, as proved about their embeddings.  `extract` may raise per
source (`_extract_from_source` propagates model-call and parse errors);
`extract_facts` catches that per source.  The decomposer and synthesizer
model-call outcomes are threaded to the `decompose` and `synthesize`
embeddings above.  File writes are recorded as `Effect`s.
---------------------------------------------------------------------- -/

/-- A side effect the orchestrator performs itself (file persistence). -/
inductive Effect where
  | saveSources
  | saveReport
deriving Repr, DecidableEq

/-- The error escaping `research`: Python raises the builtin `ValueError`
with a fixed message (orchestrator.py line 87); no dedicated exception
class exists in the repository. -/
inductive PyError where
  | valueError (msg : String)
deriving Repr, DecidableEq

/-- The message of the `ValueError` raised by `research`. -/
def noSourcesMsg : String :=
  "No sources found or all content fetches failed. Check your internet connection or try a different question."

/-- The orchestrator's collaborators, abstracted by their behaviour during
one run. -/
structure Collaborators where
  /-- Outcome of the decomposer's `_call_claude` plus JSON extraction. -/
  decomposeCall : String → Except Unit (Option Json)
  /-- `SearchEngine.search` (total, returns `[]` on failure). -/
  search : String → List SearchResult
  /-- `ContentFetcher.fetch_content` (total, `None` on failure). -/
  fetch : String → Option String
  /-- `FactExtractor._extract_from_source` for one source: its fact list,
  or `.error` when its model call or parse raised. -/
  extract : Source → String → Except Unit (List Fact)
  /-- Outcome of the synthesizer's `_call_claude` plus JSON extraction. -/
  synthCall : String → List Fact → Except Unit (Option Json)

/-- The inner result loop of `ResearchOrchestrator._search_and_fetch`: for
each search result fetch the content, and append a `Source` exactly when
the fetch produced truthy (non-`None`, non-empty) content. -/
def fetch_sources (C : Collaborators) (now : Nat) :
    List SearchResult → List Source
  | [] => []
  | r :: rest =>
    match C.fetch r.url with
    | some content =>
      if content = "" then fetch_sources C now rest
      else ⟨r.url, r.title, content, now⟩ :: fetch_sources C now rest
    | none => fetch_sources C now rest

/-- `ResearchOrchestrator._search_and_fetch`: search each query in order
and accumulate the fetched sources.  An empty search-result list `continue`s
to the next query, which is the same as contributing no sources. -/
def search_and_fetch (C : Collaborators) (now : Nat) :
    List String → List Source
  | [] => []
  | query :: rest =>
    fetch_sources C now (C.search query) ++ search_and_fetch C now rest

/-- `FactExtractor.extract_facts`: sources without content are skipped, a
per-source extraction failure is caught and contributes zero facts, and the
surviving fact lists are concatenated in source order. -/
def extract_facts (C : Collaborators) (question : String) :
    List Source → List Fact
  | [] => []
  | s :: rest =>
    if s.content = "" then extract_facts C question rest
    else
      match C.extract s question with
      | .ok facts => facts ++ extract_facts C question rest
      | .error _ => extract_facts C question rest

/-- `ResearchOrchestrator.research`, returning the Python result (report or
raised error) together with the persistence effects the method itself
performs.  The decomposer never raises (`decompose` is total), so the
orchestrator's own `try` around it never fires; with no sources the method
raises `ValueError` before any save; otherwise it saves the intermediate
sources when `save_intermediate` is set, extracts, synthesizes, assembles
the report, and saves the report before returning it. -/
def research (C : Collaborators) (question : String)
    (min_queries max_queries : Nat) (save_intermediate : Bool) (now : Nat) :
    Except PyError ResearchReport × List Effect :=
  let sub_queries := decompose question min_queries max_queries (C.decomposeCall question)
  let all_sources := search_and_fetch C now sub_queries
  if all_sources.isEmpty then
    (.error (.valueError noSourcesMsg), [])
  else
    let save_effects := if save_intermediate then [Effect.saveSources] else []
    let facts := extract_facts C question all_sources
    let synthesis := synthesize question facts (C.synthCall question facts)
    let report : ResearchReport :=
      ⟨question, sub_queries, all_sources, facts, synthesis, now⟩
    (.ok report, save_effects ++ [Effect.saveReport])

/- ----------------------------------------------------------------------
Concrete collaborator instances used to witness the theorems below.
---------------------------------------------------------------------- -/

/-- A run in which every stage succeeds: one sub-query (the decomposer call
raised, so the question itself is used), one search result, one fetched
source, one extracted fact, and a synthesizer whose model call raised. -/
def exCollab : Collaborators where
  decomposeCall := fun _ => .error ()
  search := fun _ => [⟨"http://x", "X", "about x"⟩]
  fetch := fun _ => some "hello world"
  extract := fun _ _ => .ok [⟨"Water is wet", none, "high", "http://x"⟩]
  synthCall := fun _ _ => .error ()

/-- A run in which every search returns no results. -/
def exCollabNoResults : Collaborators where
  decomposeCall := fun _ => .error ()
  search := fun _ => []
  fetch := fun _ => none
  extract := fun _ _ => .error ()
  synthCall := fun _ _ => .error ()

/- ----------------------------------------------------------------------
Theorems.
---------------------------------------------------------------------- -/

/-- C2: for every question, `decompose` returns either a list of length
within `[min_queries, max_queries]` or exactly `[question]`; the
`[question]` fallback is taken when the model call raises, when the
response cannot be parsed, and when the parsed list has fewer than
`min_queries` entries (discarding the whole list); a parsed list of at
least `min_queries` entries is truncated to its first `max_queries`. -/
theorem c2_decompose_bounds (question : String) (min_queries max_queries : Nat)
    (callOutcome : Except Unit (Option Json)) (hmm : min_queries ≤ max_queries) :
    (decompose question min_queries max_queries callOutcome = [question] ∨
      (min_queries ≤ (decompose question min_queries max_queries callOutcome).length ∧
        (decompose question min_queries max_queries callOutcome).length ≤ max_queries))
    ∧ (∀ u, callOutcome = .error u →
        decompose question min_queries max_queries callOutcome = [question])
    ∧ (∀ parsed, callOutcome = .ok parsed → parse_queries parsed = .error () →
        decompose question min_queries max_queries callOutcome = [question])
    ∧ (∀ parsed l, callOutcome = .ok parsed → parse_queries parsed = .ok l →
        l.length < min_queries →
        decompose question min_queries max_queries callOutcome = [question])
    ∧ (∀ parsed l, callOutcome = .ok parsed → parse_queries parsed = .ok l →
        min_queries ≤ l.length →
        decompose question min_queries max_queries callOutcome = l.take max_queries) := by
  refine ⟨?_, ?_, ?_, ?_, ?_⟩
  · cases callOutcome with
    | error u => exact Or.inl rfl
    | ok parsed =>
      cases hpq : parse_queries parsed with
      | error u => left; simp [decompose, hpq]
      | ok l =>
        by_cases hlen : l.length < min_queries
        · left; simp [decompose, hpq, hlen]
        · right
          simp only [decompose, hpq, if_neg hlen, List.length_take]
          omega
  · intro u h; subst h; rfl
  · intro parsed h hpq; subst h; simp [decompose, hpq]
  · intro parsed l h hpq hlen; subst h; simp [decompose, hpq, hlen]
  · intro parsed l h hpq hlen; subst h
    simp [decompose, hpq, Nat.not_lt.mpr hlen]

/-- C2 witness: a concrete parsed list of three sub-queries is returned as
is. -/
theorem c2_decompose_bounds_witness :
    decompose "q" 3 5 (.ok (some (.arr [.str "a", .str "b", .str "c"]))) =
      ["a", "b", "c"] := by
  have h := (c2_decompose_bounds "q" 3 5
      (.ok (some (.arr [.str "a", .str "b", .str "c"]))) (by decide)).2.2.2.2
      (some (.arr [.str "a", .str "b", .str "c"])) ["a", "b", "c"] rfl rfl
      (by decide)
  simpa using h

/-- Every fact kept by `parse_fact_entry` carries one of the three
recognised confidence labels. -/
theorem parse_fact_entry_confidence {source_url : String} {entry : Json}
    {f : PFact} (h : parse_fact_entry source_url entry = some f) :
    f.confidence = "high" ∨ f.confidence = "medium" ∨ f.confidence = "low" := by
  cases entry with
  | obj fact_dict =>
    simp only [parse_fact_entry] at h
    split at h
    · split at h
      · cases h
        dsimp only
        split
        · assumption
        · right; left; rfl
      · cases h
    · cases h
  | null => cases h
  | bool b => cases h
  | num n => cases h
  | str s => cases h
  | arr l => cases h

/-- C4 counterexample: the claim says a fact entry with a malformed
confidence value is normalized to `medium` rather than dropped, but an
entry whose confidence is the JSON number `3` raises `AttributeError` at
`.lower()` inside the per-entry `try` and is dropped: the parsed output is
empty instead of containing the normalized fact. -/
theorem c4_nonstring_confidence_counterexample :
    parse_facts "http://s"
        (some (.obj [("facts",
          .arr [.obj [("claim", .str "The sky is blue"), ("confidence", .num 3)]])]))
      = .ok []
    ∧ (.ok [] : Except Unit (List PFact)) ≠
        .ok [⟨.str "The sky is blue", .null, "medium", "http://s"⟩] := by
  refine ⟨rfl, ?_⟩
  intro h
  exact absurd (Except.ok.inj h) (by simp)

/-- C4 (amended): every parsed fact has confidence in `{high, medium,
low}`; an entry whose confidence field is absent, or is a string (of any
case, recognized or not), is normalized — lower-cased and defaulted to
`medium` when unrecognized — and kept whenever its claim is truthy; but an
entry whose confidence value is not a string raises in the per-entry `try`
and is dropped. -/
theorem c4_confidence_normalized_amended (source_url : String) :
    (∀ parsed facts, parse_facts source_url parsed = .ok facts →
        ∀ f ∈ facts,
          f.confidence = "high" ∨ f.confidence = "medium" ∨ f.confidence = "low")
    ∧ (∀ fact_dict c, Json.get fact_dict "confidence" = some (.str c) →
        ((Json.get fact_dict "claim").getD (.str "")).truthy = true →
        parse_fact_entry source_url (.obj fact_dict)
          = some ⟨(Json.get fact_dict "claim").getD (.str ""),
              (Json.get fact_dict "caveat").getD .null,
              (if pylower c = "high" ∨ pylower c = "medium" ∨ pylower c = "low"
                then pylower c else "medium"),
              source_url⟩)
    ∧ (∀ fact_dict, Json.get fact_dict "confidence" = none →
        ((Json.get fact_dict "claim").getD (.str "")).truthy = true →
        parse_fact_entry source_url (.obj fact_dict)
          = some ⟨(Json.get fact_dict "claim").getD (.str ""),
              (Json.get fact_dict "caveat").getD .null, "medium", source_url⟩)
    ∧ (∀ fact_dict v, Json.get fact_dict "confidence" = some v →
        (∀ s, v ≠ .str s) →
        parse_fact_entry source_url (.obj fact_dict) = none) := by
  refine ⟨?_, ?_, ?_, ?_⟩
  · intro parsed facts hok f hf
    cases parsed with
    | none => cases hok
    | some j =>
      cases j with
      | obj data =>
        simp only [parse_facts] at hok
        split at hok
        · cases hok
        · cases hok
          rcases List.mem_filterMap.mp hf with ⟨e, _, he⟩
          exact parse_fact_entry_confidence he
        · cases hok
      | null => cases hok
      | bool b => cases hok
      | num n => cases hok
      | str s => cases hok
      | arr l => cases hok
  · intro fact_dict c hc hclaim
    simp [parse_fact_entry, hc, hclaim]
  · intro fact_dict hc hclaim
    simp [parse_fact_entry, hc, hclaim]
    decide
  · intro fact_dict v hc hv
    cases v with
    | str s => exact absurd rfl (hv s)
    | null => simp [parse_fact_entry, hc]
    | bool b => simp [parse_fact_entry, hc]
    | num n => simp [parse_fact_entry, hc]
    | arr l => simp [parse_fact_entry, hc]
    | obj o => simp [parse_fact_entry, hc]

/-- C4 witness: a concrete entry with upper-case confidence is kept with
the label lower-cased, and a concrete unrecognized string confidence is
kept as `medium`. -/
theorem c4_confidence_normalized_amended_witness :
    parse_fact_entry "u" (.obj [("claim", .str "x"), ("confidence", .str "HIGH")])
        = some ⟨.str "x", .null, "high", "u"⟩
    ∧ parse_fact_entry "u" (.obj [("claim", .str "x"), ("confidence", .str "sky-high")])
        = some ⟨.str "x", .null, "medium", "u"⟩
    ∧ parse_fact_entry "u" (.obj [("claim", .str "x"), ("confidence", .num 3)]) = none := by
  refine ⟨?_, ?_, ?_⟩
  · have h := (c4_confidence_normalized_amended "u").2.1
      [("claim", .str "x"), ("confidence", .str "HIGH")] "HIGH" rfl (by decide)
    exact h
  · have h := (c4_confidence_normalized_amended "u").2.1
      [("claim", .str "x"), ("confidence", .str "sky-high")] "sky-high" rfl (by decide)
    exact h
  · have h := (c4_confidence_normalized_amended "u").2.2.2
      [("claim", .str "x"), ("confidence", .num 3)] (.num 3) rfl
      (fun s hs => by cases hs)
    exact h

/-- Appending to a non-empty string yields a non-empty string. -/
theorem append_ne_empty_left {s : String} (t : String) (h : s ≠ "") :
    s ++ t ≠ "" := by
  intro he
  apply h
  have hl := congrArg String.length he
  rw [String.length_append] at hl
  have hs : s.length = 0 := by
    have : ("" : String).length = 0 := rfl
    omega
  cases s with
  | mk data =>
    cases data with
    | nil => rfl
    | cons c cs => simp [String.length, List.length] at hs

/-- The deterministic fallback summary always carries a non-empty answer:
both of its branches start with a fixed non-empty literal. -/
theorem fallback_synthesis_answer_ne_empty (question : String)
    (facts : List Fact) : (fallback_synthesis question facts).answer ≠ "" := by
  unfold fallback_synthesis
  dsimp only
  split
  · exact append_ne_empty_left _ (by decide)
  · exact append_ne_empty_left _ (append_ne_empty_left _ (append_ne_empty_left _ (by decide)))

/-- A response accepted by `_parse_synthesis` has a non-empty answer: the
method raises `ValueError` on a missing or empty `answer` field. -/
theorem parse_synthesis_answer_ne_empty {parsed : Option Json}
    {syn : Synthesis} (h : parse_synthesis parsed = .ok syn) :
    syn.answer ≠ "" := by
  cases parsed with
  | none => cases h
  | some j =>
    cases j with
    | obj data =>
      simp only [parse_synthesis] at h
      split at h
      · split at h
        · cases h
        · split at h
          · split at h
            · cases h
            · cases h
              simpa using ‹¬ _›
          · cases h
      · cases h
    | null => cases h
    | bool b => cases h
    | num n => cases h
    | str s => cases h
    | arr l => cases h

/-- `synthesize` never returns an empty answer, on any path. -/
theorem synthesize_answer_ne_empty (question : String) (facts : List Fact)
    (co : Except Unit (Option Json)) :
    (synthesize question facts co).answer ≠ "" := by
  unfold synthesize
  split
  · decide
  · cases co with
    | error u => exact fallback_synthesis_answer_ne_empty question facts
    | ok parsed =>
      cases hp : parse_synthesis parsed with
      | ok syn =>
        simp only [hp]
        exact parse_synthesis_answer_ne_empty hp
      | error u =>
        simp only [hp]
        exact fallback_synthesis_answer_ne_empty question facts

/-- C6: the synthesis in every returned report has a non-empty answer —
via the model path, the no-facts degenerate synthesis, or the fallback —
and a parsed response whose `answer` field is absent or empty is treated
as a parse failure rather than returned. -/
theorem c6_answer_nonempty :
    (∀ C question min_queries max_queries flag now r effects,
        research C question min_queries max_queries flag now = (.ok r, effects) →
        r.synthesis.answer ≠ "")
    ∧ (∀ question facts co, (synthesize question facts co).answer ≠ "")
    ∧ (∀ data, Json.get data "answer" = none ∨ Json.get data "answer" = some (.str "") →
        parse_synthesis (some (.obj data)) = .error ()) := by
  refine ⟨?_, synthesize_answer_ne_empty, ?_⟩
  · intro C question min_queries max_queries flag now r effects h
    simp only [research] at h
    split at h
    · simp at h
    · rw [Prod.mk.injEq] at h
      obtain ⟨h1, _⟩ := h
      cases h1
      exact synthesize_answer_ne_empty question _ _
  · intro data hanswer
    have hget : getStr data "answer" "" = some "" := by
      rcases hanswer with h | h <;> simp [getStr, h]
    simp only [parse_synthesis]
    rw [hget]
    split
    · split
      · rfl
      · split
        · simp_all
        · rfl
    · rfl

/-- C6 witness: the report of a concrete successful run in which the
synthesizer model call raised. -/
theorem c6_answer_nonempty_witness :
    (ResearchReport.mk "q" ["q"] [⟨"http://x", "X", "hello world", 0⟩]
        [⟨"Water is wet", none, "high", "http://x"⟩]
        (fallback_synthesis "q" [⟨"Water is wet", none, "high", "http://x"⟩])
        0).synthesis.answer ≠ "" :=
  c6_answer_nonempty.1 exCollab "q" 3 5 false 0 _ [Effect.saveReport] rfl

/-- C7: on every synthesis failure over a non-empty fact list — model-call
exception or parse failure (which includes malformed JSON and a missing
answer) — `synthesize` returns the deterministic local fallback: fixed
agreement and gap placeholders, no contradictions, and an answer built from
up to 3 high-confidence claims, or from the first fact's claim when no
high-confidence fact exists. -/
theorem c7_fallback_on_failure (question : String) (facts : List Fact)
    (co : Except Unit (Option Json)) (hfacts : facts ≠ [])
    (hfail : co = .error () ∨
      ∃ parsed, co = .ok parsed ∧ parse_synthesis parsed = .error ()) :
    synthesize question facts co = fallback_synthesis question facts
    ∧ (synthesize question facts co).agreements = ["Multiple sources found"]
    ∧ (synthesize question facts co).contradictions = []
    ∧ (synthesize question facts co).gaps =
        ["Detailed analysis unavailable due to synthesis error"]
    ∧ (∀ f rest, facts = f :: rest →
        facts.filter (fun x => x.confidence == "high") = [] →
        (synthesize question facts co).answer =
          "Multiple sources discuss this topic, but confidence levels vary. Key points include: "
            ++ f.claim)
    ∧ (facts.filter (fun x => x.confidence == "high") ≠ [] →
        (synthesize question facts co).answer =
          "Based on " ++ toString (facts.filter (fun x => x.confidence == "high")).length
            ++ " high-confidence sources: "
            ++ String.intercalate " "
                (((facts.filter (fun x => x.confidence == "high")).take 3).map Fact.claim)) := by
  have hsyn : synthesize question facts co = fallback_synthesis question facts := by
    rcases hfail with h | ⟨parsed, hco, hparse⟩
    · subst h
      unfold synthesize
      rw [if_neg (by simpa using hfacts)]
    · subst hco
      unfold synthesize
      rw [if_neg (by simpa using hfacts)]
      show (match parse_synthesis parsed with
            | .ok synthesis => synthesis
            | .error _ => fallback_synthesis question facts)
          = fallback_synthesis question facts
      rw [hparse]
  refine ⟨hsyn, ?_, ?_, ?_, ?_, ?_⟩ <;> rw [hsyn] <;> unfold fallback_synthesis
  · rfl
  · rfl
  · rfl
  · intro f rest hcons hfilter
    dsimp only
    rw [hfilter, hcons]
    rfl
  · intro hfilter
    dsimp only
    rw [if_neg (by simpa using hfilter)]

/-- C7 witness: a concrete one-fact list with a raised model call lands in
the fallback and produces the fixed placeholders. -/
theorem c7_fallback_on_failure_witness :
    synthesize "q" [⟨"Water is wet", none, "high", "http://x"⟩] (.error ())
      = fallback_synthesis "q" [⟨"Water is wet", none, "high", "http://x"⟩]
    ∧ (synthesize "q" [⟨"Water is wet", none, "high", "http://x"⟩] (.error ())).agreements
      = ["Multiple sources found"] := by
  have h := c7_fallback_on_failure "q" [⟨"Water is wet", none, "high", "http://x"⟩]
    (.error ()) (by simp) (Or.inl rfl)
  exact ⟨h.1, h.2.1⟩

/-- The result loop of `_search_and_fetch` in closed form: one optional
`Source` per search result, present exactly when the fetch yielded truthy
content. -/
theorem fetch_sources_eq_filterMap (C : Collaborators) (now : Nat)
    (results : List SearchResult) :
    fetch_sources C now results = results.filterMap (fun r =>
      match C.fetch r.url with
      | some content =>
        if content = "" then none else some ⟨r.url, r.title, content, now⟩
      | none => none) := by
  induction results with
  | nil => rfl
  | cons r rest ih =>
    rw [List.filterMap_cons]
    simp only [fetch_sources]
    cases C.fetch r.url with
    | none => exact ih
    | some content =>
      by_cases h : content = ""
      · simp only [if_pos h]
        exact ih
      · simp only [if_neg h]
        rw [ih]

/-- C5: the accumulated source list is exactly one `Source` per (sub-query,
search-result) pair whose fetch returned non-empty content, in encounter
order — so a `Source` is created iff the fetched content is non-empty, a
failed or empty fetch is skipped without aborting anything, and no
accumulated `Source` has empty content. -/
theorem c5_source_iff_nonempty_content (C : Collaborators) (now : Nat)
    (queries : List String) :
    search_and_fetch C now queries = queries.flatMap (fun query =>
      (C.search query).filterMap (fun r =>
        match C.fetch r.url with
        | some content =>
          if content = "" then none else some ⟨r.url, r.title, content, now⟩
        | none => none))
    ∧ ∀ s ∈ search_and_fetch C now queries, s.content ≠ "" := by
  constructor
  · induction queries with
    | nil => rfl
    | cons q rest ih =>
      rw [List.flatMap_cons]
      simp only [search_and_fetch]
      rw [ih, fetch_sources_eq_filterMap]
  · intro s hs
    induction queries with
    | nil => cases hs
    | cons q rest ih =>
      simp only [search_and_fetch, List.mem_append] at hs
      rcases hs with hs | hs
      · rw [fetch_sources_eq_filterMap] at hs
        rcases List.mem_filterMap.mp hs with ⟨r, _, hr⟩
        revert hr
        cases C.fetch r.url with
        | none => intro hr; cases hr
        | some content =>
          show ((if content = "" then (none : Option Source)
              else some (Source.mk r.url r.title content now)) = some s) →
            s.content ≠ ""
          by_cases h : content = ""
          · rw [if_pos h]; intro hr; cases hr
          · rw [if_neg h]
            intro hr
            cases Option.some.inj hr
            exact h
      · exact ih hs

/-- C5 witness: a concrete run with one successful and one failed fetch. -/
theorem c5_source_iff_nonempty_content_witness :
    search_and_fetch exCollab 0 ["q"]
      = [⟨"http://x", "X", "hello world", 0⟩]
    ∧ (⟨"http://x", "X", "hello world", 0⟩ : Source).content ≠ "" := by
  have hmem : (⟨"http://x", "X", "hello world", 0⟩ : Source)
      ∈ search_and_fetch exCollab 0 ["q"] := by
    rw [(rfl : search_and_fetch exCollab 0 ["q"]
      = [⟨"http://x", "X", "hello world", 0⟩])]
    exact List.mem_singleton.mpr rfl
  exact ⟨rfl, (c5_source_iff_nonempty_content exCollab 0 ["q"]).2 _ hmem⟩

/-- C1: `research` fails exactly when the accumulated source list is empty
after all sub-queries are processed; the failure is the fixed no-sources
`ValueError` (the run's single hard-stop — the collaborators never raise),
and a successful run never returns a report with an empty source list. -/
theorem c1_no_sources_iff (C : Collaborators) (question : String)
    (min_queries max_queries : Nat) (flag : Bool) (now : Nat) :
    ((∃ e, (research C question min_queries max_queries flag now).1 = .error e)
      ↔ search_and_fetch C now
          (decompose question min_queries max_queries (C.decomposeCall question)) = [])
    ∧ (search_and_fetch C now
          (decompose question min_queries max_queries (C.decomposeCall question)) = [] →
        research C question min_queries max_queries flag now
          = (.error (.valueError noSourcesMsg), []))
    ∧ (∀ r, (research C question min_queries max_queries flag now).1 = .ok r →
        r.sources ≠ []) := by
  by_cases hs : search_and_fetch C now
      (decompose question min_queries max_queries (C.decomposeCall question)) = []
  · have hres : research C question min_queries max_queries flag now
        = (.error (.valueError noSourcesMsg), []) := by
      simp only [research]
      rw [if_pos (by simpa [List.isEmpty_iff] using hs)]
    refine ⟨⟨fun _ => hs, fun _ => ⟨.valueError noSourcesMsg, by rw [hres]⟩⟩,
      fun _ => hres, ?_⟩
    intro r hr
    rw [hres] at hr
    cases hr
  · have hres : (research C question min_queries max_queries flag now).1
        = .ok ⟨question,
            decompose question min_queries max_queries (C.decomposeCall question),
            search_and_fetch C now
              (decompose question min_queries max_queries (C.decomposeCall question)),
            extract_facts C question (search_and_fetch C now
              (decompose question min_queries max_queries (C.decomposeCall question))),
            synthesize question
              (extract_facts C question (search_and_fetch C now
                (decompose question min_queries max_queries (C.decomposeCall question))))
              (C.synthCall question
                (extract_facts C question (search_and_fetch C now
                  (decompose question min_queries max_queries (C.decomposeCall question))))),
            now⟩ := by
      simp only [research]
      rw [if_neg (by simpa [List.isEmpty_iff] using hs)]
    refine ⟨⟨?_, fun h => absurd h hs⟩, fun h => absurd h hs, ?_⟩
    · rintro ⟨e, he⟩
      rw [hres] at he
      cases he
    · intro r hr
      rw [hres] at hr
      cases Except.ok.inj hr
      exact hs

/-- C1 witness: with every search empty, the run fails with the no-sources
error and performs no persistence. -/
theorem c1_no_sources_iff_witness :
    research exCollabNoResults "q" 3 5 false 0
      = (.error (.valueError noSourcesMsg), []) :=
  (c1_no_sources_iff exCollabNoResults "q" 3 5 false 0).2.1 rfl

/-- C10 counterexample: the claim says `research` performs no persistence
itself, but a concrete successful run's own effect log contains the report
save (orchestrator.py line 124 calls `self._save_report(report)` before
returning). -/
theorem c10_persistence_counterexample :
    (research exCollab "q" 3 5 false 0).2 = [Effect.saveReport]
    ∧ Effect.saveReport ∈ (research exCollab "q" 3 5 false 0).2 := by
  refine ⟨rfl, ?_⟩
  rw [(rfl : (research exCollab "q" 3 5 false 0).2 = [Effect.saveReport])]
  exact List.mem_singleton.mpr rfl

/-- C10 (amended): `research` does persist by itself — every successful run
saves the report, preceded by an intermediate source save when
`save_intermediate` is set, while the no-sources failure path performs no
persistence. -/
theorem c10_effects_amended (C : Collaborators) (question : String)
    (min_queries max_queries : Nat) (flag : Bool) (now : Nat) :
    ((∃ e, (research C question min_queries max_queries flag now).1 = .error e) →
        (research C question min_queries max_queries flag now).2 = [])
    ∧ (∀ r, (research C question min_queries max_queries flag now).1 = .ok r →
        (research C question min_queries max_queries flag now).2
          = (if flag then [Effect.saveSources] else []) ++ [Effect.saveReport]) := by
  by_cases hs : search_and_fetch C now
      (decompose question min_queries max_queries (C.decomposeCall question)) = []
  · have hres : research C question min_queries max_queries flag now
        = (.error (.valueError noSourcesMsg), []) := by
      simp only [research]
      rw [if_pos (by simpa [List.isEmpty_iff] using hs)]
    refine ⟨fun _ => by rw [hres], ?_⟩
    intro r hr
    rw [hres] at hr
    cases hr
  · have hres : research C question min_queries max_queries flag now
        = (.ok ⟨question,
            decompose question min_queries max_queries (C.decomposeCall question),
            search_and_fetch C now
              (decompose question min_queries max_queries (C.decomposeCall question)),
            extract_facts C question (search_and_fetch C now
              (decompose question min_queries max_queries (C.decomposeCall question))),
            synthesize question
              (extract_facts C question (search_and_fetch C now
                (decompose question min_queries max_queries (C.decomposeCall question))))
              (C.synthCall question
                (extract_facts C question (search_and_fetch C now
                  (decompose question min_queries max_queries (C.decomposeCall question))))),
            now⟩,
          (if flag then [Effect.saveSources] else []) ++ [Effect.saveReport]) := by
      simp only [research]
      rw [if_neg (by simpa [List.isEmpty_iff] using hs)]
    refine ⟨?_, fun r _ => by rw [hres]⟩
    rintro ⟨e, he⟩
    rw [hres] at he
    cases he

/-- C10 witness: a concrete successful run with `save_intermediate` set
saves the sources and then the report. -/
theorem c10_effects_amended_witness :
    (research exCollab "q" 3 5 true 0).2
      = [Effect.saveSources, Effect.saveReport] := by
  have h := (c10_effects_amended exCollab "q" 3 5 true 0).2 _ rfl
  simpa using h

/-- C9: the shared `_call_claude` loop (identical in the decomposer, fact
extractor and synthesizer) makes at most 3 attempts with its default
budget; persistent rate limits sleep 1s then 2s and then propagate the
rate-limit error, while any other API error propagates at once, with no
sleep and no further attempt. -/
theorem c9_call_retry (out : Nat → CallOutcome) :
    (call_claude out 3).attempts ≤ 3
    ∧ (out 0 = .rateLimit → out 1 = .rateLimit → out 2 = .rateLimit →
        call_claude out 3 = ⟨.raised .rateLimit, [1, 2], 3⟩)
    ∧ (out 0 = .apiError → call_claude out 3 = ⟨.raised .apiError, [], 1⟩)
    ∧ (∀ s, out 0 = .success s →
        call_claude out 3 = ⟨.returned (some s), [], 1⟩)
    ∧ (out 0 = .rateLimit → out 1 = .apiError →
        call_claude out 3 = ⟨.raised .apiError, [1], 2⟩) := by
  refine ⟨?_, ?_, ?_, ?_, ?_⟩
  · cases h0 : out 0 with
    | success s0 => simp [call_claude, call_go, h0]
    | apiError => simp [call_claude, call_go, h0]
    | otherError => simp [call_claude, call_go, h0]
    | rateLimit =>
      cases h1 : out 1 with
      | success s1 => simp [call_claude, call_go, h0, h1]
      | apiError => simp [call_claude, call_go, h0, h1]
      | otherError => simp [call_claude, call_go, h0, h1]
      | rateLimit =>
        cases h2 : out 2 with
        | success s2 => simp [call_claude, call_go, h0, h1, h2]
        | apiError => simp [call_claude, call_go, h0, h1, h2]
        | otherError => simp [call_claude, call_go, h0, h1, h2]
        | rateLimit => simp [call_claude, call_go, h0, h1, h2]
  · intro h0 h1 h2
    simp [call_claude, call_go, h0, h1, h2]
  · intro h0
    simp [call_claude, call_go, h0]
  · intro s h0
    simp [call_claude, call_go, h0]
  · intro h0 h1
    simp [call_claude, call_go, h0, h1]

/-- C9 witness: a persistently rate-limited trace sleeps 1s then 2s, makes
exactly three attempts, and propagates the rate-limit error. -/
theorem c9_call_retry_witness :
    call_claude (fun _ => CallOutcome.rateLimit) 3
      = ⟨.raised .rateLimit, [1, 2], 3⟩ :=
  (c9_call_retry (fun _ => .rateLimit)).2.1 rfl rfl rfl

/-- On a trace of retryable outcomes only (timeouts and 5xx statuses), the
fetch loop exhausts its budget: the result is `none` and each non-final
attempt sleeps 1 second after a timeout and `2 ^ attempt` seconds after a
5xx status. -/
theorem fetch_go_retryable (max_length retry_attempts : Nat)
    (out : Nat → FetchOutcome) :
    ∀ fuel attempt, attempt + fuel = retry_attempts →
    (∀ i, attempt ≤ i → i < retry_attempts →
        (out i = .timeout ∨ ∃ status, 500 ≤ status ∧ out i = .httpError status)) →
    fetch_go max_length retry_attempts out attempt fuel
      = (none, (List.range' attempt (fuel - 1)).map
          (fun i => if out i = .timeout then 1 else 2 ^ i)) := by
  intro fuel
  induction fuel with
  | zero => intro attempt _ _; rfl
  | succ n ih =>
    intro attempt hsum hret
    have hattempt : attempt < retry_attempts := by omega
    have hrec : ∀ i, attempt + 1 ≤ i → i < retry_attempts →
        (out i = .timeout ∨ ∃ status, 500 ≤ status ∧ out i = .httpError status) :=
      fun i hi1 hi2 => hret i (by omega) hi2
    rcases hret attempt le_rfl hattempt with ht | ⟨status, h500, hst⟩
    · simp only [fetch_go, ht]
      by_cases hlast : attempt < retry_attempts - 1
      · rw [if_pos hlast, ih (attempt + 1) (by omega) hrec]
        obtain ⟨m, rfl⟩ : ∃ m, n = m + 1 := ⟨n - 1, by omega⟩
        simp [List.range'_succ, ht]
      · rw [if_neg hlast]
        have hn : n = 0 := by omega
        subst hn
        rfl
    · simp only [fetch_go, hst]
      have e4 : ¬ status = 404 := by omega
      have e3 : ¬ status = 403 := by omega
      rw [if_neg e4, if_neg e3, if_pos h500]
      by_cases hlast : attempt < retry_attempts - 1
      · rw [if_pos hlast, ih (attempt + 1) (by omega) hrec]
        obtain ⟨m, rfl⟩ : ∃ m, n = m + 1 := ⟨n - 1, by omega⟩
        simp [List.range'_succ, hst]
      · rw [if_neg hlast]
        have hn : n = 0 := by omega
        subst hn
        rfl

/-- C3 counterexample: the claim predicts doubling backoff (1s then 2s) for
timeouts, but with a retry budget of 3 a URL that times out on every
attempt sleeps a constant 1 second between attempts: the recorded sleeps
are `[1, 1]`, not `[2 ^ 0, 2 ^ 1]`. -/
theorem c3_backoff_counterexample :
    (fetch_content 5000 3 (fun _ => .timeout)).2 = [1, 1]
    ∧ (fetch_content 5000 3 (fun _ => .timeout)).2 ≠ [2 ^ 0, 2 ^ 1] := by
  refine ⟨rfl, ?_⟩
  rw [(rfl : (fetch_content 5000 3 (fun _ => .timeout)).2 = [1, 1])]
  decide

/-- C3 (amended): 5xx responses are retried with doubling backoff
(`2 ^ attempt`, so 1s, 2s, ...), timeouts are retried with a constant
1-second sleep, both up to the configured budget after which the result is
`None`; 4xx statuses are never retried and immediately yield `None`; and
every other unrecoverable condition — no extractable text, a request error,
an unexpected exception — yields `None` rather than raising. -/
theorem c3_fetch_retry_amended (max_length retry_attempts : Nat)
    (out : Nat → FetchOutcome) :
    (∀ status, 400 ≤ status → status < 500 → out 0 = .httpError status →
        fetch_content max_length retry_attempts out = (none, []))
    ∧ ((∀ i, i < retry_attempts →
          (out i = .timeout ∨ ∃ status, 500 ≤ status ∧ out i = .httpError status)) →
        fetch_content max_length retry_attempts out
          = (none, (List.range (retry_attempts - 1)).map
              (fun i => if out i = .timeout then 1 else 2 ^ i)))
    ∧ (∀ content, out 0 = .success (some content) → content ≠ "" →
        0 < retry_attempts →
        fetch_content max_length retry_attempts out
          = (some (truncate_words max_length content), []))
    ∧ (out 0 = .success none → fetch_content max_length retry_attempts out = (none, []))
    ∧ (out 0 = .requestError → fetch_content max_length retry_attempts out = (none, []))
    ∧ (out 0 = .unexpectedError → fetch_content max_length retry_attempts out = (none, [])) := by
  refine ⟨?_, ?_, ?_, ?_, ?_, ?_⟩
  · intro status h4 h5 h0
    cases retry_attempts with
    | zero => rfl
    | succ n =>
      simp only [fetch_content, fetch_go, h0]
      by_cases e4 : status = 404
      · rw [if_pos e4]
      · rw [if_neg e4]
        by_cases e3 : status = 403
        · rw [if_pos e3]
        · rw [if_neg e3, if_neg (by omega : ¬ 500 ≤ status)]
  · intro hret
    rw [fetch_content, fetch_go_retryable max_length retry_attempts out
        retry_attempts 0 (by omega) (fun i _ hi => hret i hi),
      List.range_eq_range']
  · intro content h0 hne hpos
    cases retry_attempts with
    | zero => omega
    | succ n =>
      simp only [fetch_content, fetch_go, h0]
      rw [if_neg hne]
  · intro h0
    cases retry_attempts with
    | zero => rfl
    | succ n => simp only [fetch_content, fetch_go, h0]
  · intro h0
    cases retry_attempts with
    | zero => rfl
    | succ n => simp only [fetch_content, fetch_go, h0]
  · intro h0
    cases retry_attempts with
    | zero => rfl
    | succ n => simp only [fetch_content, fetch_go, h0]

/-- C3 witness: a budget of 3 with timeouts throughout sleeps `[1, 1]` and
returns no content, and a first-attempt 404 returns no content at once. -/
theorem c3_fetch_retry_amended_witness :
    fetch_content 5000 3 (fun _ => FetchOutcome.timeout) = (none, [1, 1])
    ∧ fetch_content 5000 2 (fun _ => FetchOutcome.httpError 404) = (none, []) := by
  constructor
  · have h := (c3_fetch_retry_amended 5000 3 (fun _ => .timeout)).2.1
      (fun i _ => Or.inl rfl)
    exact h.trans (by decide)
  · exact (c3_fetch_retry_amended 5000 2 (fun _ => .httpError 404)).1 404
      (by decide) (by decide) rfl

/-- C8: construction raises exactly when no provider is available for the
configured mode; `SearchEngine.search` never raises — the DuckDuckGo engine
turns a fully failing backend into the empty list after its own retries,
and the Google engine turns any exception into the empty list — and in auto
mode with both engines available the Google fallback result is used exactly
when the primary DuckDuckGo result set is empty, which includes the case of
a primary whose every attempt raised. -/
theorem c8_search_contract :
    (∀ provider ddg_ok google_ok,
        searchEngine_init provider ddg_ok google_ok = .error () ↔
          ¬(((pylower provider = "duckduckgo" ∨ pylower provider = "auto") ∧ ddg_ok = true)
            ∨ ((pylower provider = "google" ∨ pylower provider = "auto") ∧ google_ok = true)))
    ∧ (∀ ddgResults googleResults,
        searchEngine_search "auto" (some ddgResults) (some googleResults)
          = if ddgResults.isEmpty then googleResults else ddgResults)
    ∧ (∀ out, (∀ i, i < 3 → out i = .error ()) → ddg_search out = [])
    ∧ (∀ out googleResults, (∀ i, i < 3 → out i = .error ()) →
        searchEngine_search "auto" (some (ddg_search out)) (some googleResults)
          = googleResults)
    ∧ google_search (.error ()) = [] := by
  have hddg : ∀ out, (∀ i, i < 3 → out i = .error ()) → ddg_search out = [] := by
    intro out h
    have h0 := h 0 (by decide)
    have h1 := h 1 (by decide)
    have h2 := h 2 (by decide)
    simp [ddg_search, ddg_go, h0, h1, h2]
  have hauto : ∀ ddgResults googleResults,
      searchEngine_search "auto" (some ddgResults) (some googleResults)
        = if ddgResults.isEmpty then googleResults else ddgResults := by
    intro ddgResults googleResults
    by_cases he : ddgResults.isEmpty
    · simp [searchEngine_search, google_step, he]
    · simp [searchEngine_search, google_step, he]
  refine ⟨?_, hauto, hddg, ?_, rfl⟩
  · intro provider ddg_ok google_ok
    by_cases hd : pylower provider = "duckduckgo" <;>
      by_cases hA : pylower provider = "auto" <;>
      by_cases hG : pylower provider = "google" <;>
      cases ddg_ok <;> cases google_ok <;>
      simp [searchEngine_init, hd, hA, hG]
  · intro out googleResults h
    rw [hddg out h, hauto]
    rfl

/-- C8 witness: with neither backend available in auto mode construction
raises, and an empty DuckDuckGo result set in auto mode falls back to the
Google result. -/
theorem c8_search_contract_witness :
    searchEngine_init "auto" false false = .error ()
    ∧ searchEngine_search "auto" (some [])
        (some [⟨"http://g", "G", "found by google"⟩])
      = [⟨"http://g", "G", "found by google"⟩] := by
  constructor
  · exact (c8_search_contract.1 "auto" false false).mpr (by decide)
  · have h := c8_search_contract.2.1 [] [⟨"http://g", "G", "found by google"⟩]
    simpa using h

end ResearchAssistant
